import Mathlib

/-!
Verification of `fetch_bitcoin_price.py`: a single linear script that
performs an HTTP GET against a price API, extracts `data['bitcoin']['usd']`,
captures `pd.Timestamp.now()`, connects to PostgreSQL, runs
`CREATE TABLE IF NOT EXISTS bitcoin_price`, runs a parameterized
`INSERT ... ON CONFLICT (timestamp) DO NOTHING`, commits, closes the cursor
and connection, and prints one confirmation line.

The embedding models the script as a pure function from a `World`
(API outcome, local clock, injected connection / SQL failure flags, and the
committed database state) to a `RunResult` (the ordered trace of completed
steps, the committed database state after the run, the lines written to
standard output, and the exit status). The script catches nothing, so each
failing step ends the run immediately with the corresponding error.
psycopg2 opens a connection with autocommit off, so both SQL statements run
in one transaction: the committed database state changes only when the
single `conn.commit()` completes, which the model encodes by leaving the
committed state untouched on every path that ends before the commit.
-/

namespace BitcoinETL

/-- JSON values, as produced by `response.json()`. Numbers are modelled as
rationals; the script performs no arithmetic on them, so only exact
pass-through is at stake. -/
inductive Json where
  | null
  | bool (b : Bool)
  | num (v : Rat)
  | str (s : String)
  | arr (elems : List Json)
  | obj (fields : List (String × Json))

/-- First binding of a key in an association list of JSON object fields. -/
def lookupField : List (String × Json) → String → Option Json
  | [], _ => none
  | (k, v) :: rest, key => if k = key then some v else lookupField rest key

/-- Python subscript `data[key]` on a parsed JSON value: yields the field when
`data` is an object containing `key`, otherwise fails (KeyError on a dict
without the key, TypeError on a non-dict) — both are unhandled lookup
failures in the script. -/
def Json.getKey : Json → String → Option Json
  | .obj fields, key => lookupField fields key
  | _, _ => none

/-- `data['bitcoin']['usd']` (line 20 of the script): two chained subscripts;
`none` means the chain raises an unhandled lookup failure. -/
def extractPrice (data : Json) : Option Json :=
  (Json.getKey data "bitcoin").bind (fun b => Json.getKey b "usd")

/-- A pandas timestamp value: the instant read from the clock, and whether
the value carries timezone information. -/
structure PyTimestamp where
  clock : Int
  tzAware : Bool
deriving DecidableEq

/-- `pd.Timestamp.now()` (line 21 of the script): called without a `tz`
argument it reads the local system clock and returns a timezone-NAIVE
timestamp (pandas attaches timezone information only when `tz` is given). -/
def pdTimestampNow (clock : Int) : PyTimestamp :=
  { clock := clock, tzAware := false }

/-- One column of a SQL table schema. -/
structure Column where
  name : String
  sqlType : String
  isPrimaryKey : Bool
deriving DecidableEq

/-- The schema declared by the script's DDL (lines 28-33):
`timestamp TIMESTAMPTZ PRIMARY KEY, price_usd FLOAT`. -/
def bitcoinPriceColumns : List Column :=
  [ { name := "timestamp", sqlType := "TIMESTAMPTZ", isPrimaryKey := true },
    { name := "price_usd", sqlType := "FLOAT", isPrimaryKey := false } ]

/-- The `bitcoin_price` table: its schema and its rows.
A row is the (timestamp, price_usd) pair. -/
structure Table where
  columns : List Column
  rows : List (PyTimestamp × Json)

/-- Committed database state: the `bitcoin_price` table, when it exists. -/
structure DbState where
  bitcoinPrice : Option Table

/-- `CREATE TABLE IF NOT EXISTS bitcoin_price (...)`: creates the table with
the declared schema when absent, and is a no-op when a table of that name
already exists. -/
def createTableIfNotExists (db : DbState) : DbState :=
  match db.bitcoinPrice with
  | some _ => db
  | none => { bitcoinPrice := some { columns := bitcoinPriceColumns, rows := [] } }

/-- Whether the table already holds a row with the given timestamp
(the primary key of `bitcoin_price`). -/
def hasTimestamp (t : Table) (ts : PyTimestamp) : Bool :=
  t.rows.any (fun r => r.1 = ts)

/-- `INSERT INTO bitcoin_price (timestamp, price_usd) VALUES (%s, %s)
ON CONFLICT (timestamp) DO NOTHING`: appends the row unless a row with the
same primary-key timestamp exists, in which case the statement does nothing
and raises no error. -/
def insertOnConflictDoNothing (t : Table) (ts : PyTimestamp) (price : Json) : Table :=
  if hasTimestamp t ts then t
  else { t with rows := t.rows ++ [(ts, price)] }

/-- The insert applied at the database level. The script only reaches the
insert after `createTableIfNotExists`, so the table is always present. -/
def dbInsert (db : DbState) (ts : PyTimestamp) (price : Json) : DbState :=
  match db.bitcoinPrice with
  | some t => { bitcoinPrice := some (insertOnConflictDoNothing t ts price) }
  | none => db

/-- Whether the committed database already holds a row with this timestamp. -/
def dbHasTimestamp (db : DbState) (ts : PyTimestamp) : Bool :=
  match db.bitcoinPrice with
  | some t => hasTimestamp t ts
  | none => false

/-- Outcome of `requests.get(API_URL)` followed by `response.json()`:
the request may raise, the body may fail to decode as JSON, or a JSON value
is obtained. -/
inductive HttpOutcome where
  | requestFails
  | bodyNotJson (raw : String)
  | ok (body : Json)

/-- The unhandled exception that aborts a run, by the step that raised it. -/
inductive ScriptError where
  | requestError
  | jsonDecodeError
  | lookupError
  | connectError
  | sqlError
deriving DecidableEq

/-- The steps of the script, in source order; a trace lists the steps that
COMPLETED, in the order they completed. -/
inductive Event where
  | fetch
  | parse
  | readClock
  | connect
  | ensureSchema
  | insertRow
  | commit
  | closeCursor
  | closeConn
  | printLine
deriving DecidableEq

/-- The full step sequence of a successful run, in source order. -/
def canonicalTrace : List Event :=
  [.fetch, .parse, .readClock, .connect, .ensureSchema, .insertRow,
   .commit, .closeCursor, .closeConn, .printLine]

/-- The environment of one invocation: the HTTP outcome, the local clock
reading, whether `psycopg2.connect` succeeds, whether each `cur.execute`
succeeds (injected external SQL failures such as permissions or disk full),
and the committed database state before the run. -/
structure World where
  http : HttpOutcome
  clock : Int
  connectOk : Bool
  ddlOk : Bool
  insertOk : Bool
  db : DbState

/-- The content of the one confirmation line
`print(f"Inserted Bitcoin price ... USD at ...")`: the printed price and
timestamp (string formatting abstracted). -/
structure PrintedLine where
  price : Json
  ts : PyTimestamp

/-- Observable result of one invocation: ordered trace of completed steps,
committed database state after the run, standard output, and the unhandled
exception when the run aborted (`none` = clean exit 0). -/
structure RunResult where
  trace : List Event
  db : DbState
  stdout : List PrintedLine
  exit : Option ScriptError

/-- Process exit code: 0 on a clean run, nonzero when an unhandled
exception reached the process boundary. -/
def exitCode (r : RunResult) : Nat :=
  match r.exit with
  | none => 0
  | some _ => 1

/-- The whole script, top to bottom. Each step either completes (appending
its event) or raises, ending the run at once: the script catches no
exception. The committed database changes only on the path that reaches
`conn.commit()`. -/
def runScript (w : World) : RunResult :=
  match w.http with
  | .requestFails =>
      { trace := [], db := w.db, stdout := [], exit := some .requestError }
  | .bodyNotJson _ =>
      { trace := [.fetch], db := w.db, stdout := [], exit := some .jsonDecodeError }
  | .ok data =>
    match extractPrice data with
    | none =>
        { trace := [.fetch, .parse], db := w.db, stdout := [],
          exit := some .lookupError }
    | some price =>
      let timestamp := pdTimestampNow w.clock
      if w.connectOk = false then
        { trace := [.fetch, .parse, .readClock], db := w.db, stdout := [],
          exit := some .connectError }
      else if w.ddlOk = false then
        { trace := [.fetch, .parse, .readClock, .connect], db := w.db,
          stdout := [], exit := some .sqlError }
      else if w.insertOk = false then
        { trace := [.fetch, .parse, .readClock, .connect, .ensureSchema],
          db := w.db, stdout := [], exit := some .sqlError }
      else
        { trace := canonicalTrace,
          db := dbInsert (createTableIfNotExists w.db) timestamp price,
          stdout := [{ price := price, ts := timestamp }],
          exit := none }

/-- The timestamp the script captures at line 21, when execution reaches
that line (it does only after the two JSON lookups succeed). -/
def capturedTimestamp (w : World) : Option PyTimestamp :=
  match w.http with
  | .ok data =>
    match extractPrice data with
    | some _ => some (pdTimestampNow w.clock)
    | none => none
  | _ => none

/-- The price value the script extracts at line 20, when that line
completes. -/
def extractedPrice (w : World) : Option Json :=
  match w.http with
  | .ok data => extractPrice data
  | _ => none

/-- Whether every step of the run succeeds: response obtained and decoded,
both JSON keys present, connection established, both SQL statements
executed. -/
def allStepsSucceed (w : World) : Bool :=
  (match w.http with
   | .ok data => (extractPrice data).isSome
   | _ => false) && w.connectOk && w.ddlOk && w.insertOk

/-! ### Concrete fixtures used by witnesses and counterexamples -/

/-- The spec's example response body: `{"bitcoin": {"usd": 65000.5}}`. -/
def goodBody : Json :=
  Json.obj [("bitcoin", Json.obj [("usd", Json.num (65000.5 : Rat))])]

/-- A database in which the table does not exist yet. -/
def emptyDb : DbState := { bitcoinPrice := none }

/-- A fully successful run on an empty database. -/
def wOk : World :=
  { http := .ok goodBody, clock := 0, connectOk := true, ddlOk := true,
    insertOk := true, db := emptyDb }

/-- A run whose response body lacks the `bitcoin` key. -/
def wNoKey : World :=
  { http := .ok (Json.obj []), clock := 0, connectOk := true, ddlOk := true,
    insertOk := true, db := emptyDb }

/-- A run in which `psycopg2.connect` raises. -/
def wConnFail : World :=
  { http := .ok goodBody, clock := 0, connectOk := false, ddlOk := true,
    insertOk := true, db := emptyDb }

/-- A run in which the DDL `cur.execute` raises after a successful connect. -/
def wDdlFail : World :=
  { http := .ok goodBody, clock := 0, connectOk := true, ddlOk := false,
    insertOk := true, db := emptyDb }

/-- A table already holding one row, keyed by the timestamp at clock 7. -/
def tbl0 : Table :=
  { columns := bitcoinPriceColumns, rows := [(pdTimestampNow 7, Json.num 1)] }

/-- A database in which the correctly-shaped table already exists. -/
def dbWithTable : DbState := { bitcoinPrice := some tbl0 }

/-! ### Branch equations for `runScript` -/

theorem runScript_requestFails (w : World) (hh : w.http = .requestFails) :
    runScript w =
      { trace := [], db := w.db, stdout := [], exit := some .requestError } := by
  simp [runScript, hh]

theorem runScript_bodyNotJson (w : World) (raw : String)
    (hh : w.http = .bodyNotJson raw) :
    runScript w =
      { trace := [.fetch], db := w.db, stdout := [],
        exit := some .jsonDecodeError } := by
  simp [runScript, hh]

theorem runScript_lookupFail (w : World) (data : Json)
    (hh : w.http = .ok data) (hx : extractPrice data = none) :
    runScript w =
      { trace := [.fetch, .parse], db := w.db, stdout := [],
        exit := some .lookupError } := by
  simp [runScript, hh, hx]

theorem runScript_connectFail (w : World) (data price : Json)
    (hh : w.http = .ok data) (hx : extractPrice data = some price)
    (hc : w.connectOk = false) :
    runScript w =
      { trace := [.fetch, .parse, .readClock], db := w.db, stdout := [],
        exit := some .connectError } := by
  simp [runScript, hh, hx, hc]

theorem runScript_ddlFail (w : World) (data price : Json)
    (hh : w.http = .ok data) (hx : extractPrice data = some price)
    (hc : w.connectOk = true) (hd : w.ddlOk = false) :
    runScript w =
      { trace := [.fetch, .parse, .readClock, .connect], db := w.db,
        stdout := [], exit := some .sqlError } := by
  simp [runScript, hh, hx, hc, hd]

theorem runScript_insertFail (w : World) (data price : Json)
    (hh : w.http = .ok data) (hx : extractPrice data = some price)
    (hc : w.connectOk = true) (hd : w.ddlOk = true) (hi : w.insertOk = false) :
    runScript w =
      { trace := [.fetch, .parse, .readClock, .connect, .ensureSchema],
        db := w.db, stdout := [], exit := some .sqlError } := by
  simp [runScript, hh, hx, hc, hd, hi]

theorem runScript_success (w : World) (data price : Json)
    (hh : w.http = .ok data) (hx : extractPrice data = some price)
    (hc : w.connectOk = true) (hd : w.ddlOk = true) (hi : w.insertOk = true) :
    runScript w =
      { trace := canonicalTrace,
        db := dbInsert (createTableIfNotExists w.db) (pdTimestampNow w.clock) price,
        stdout := [{ price := price, ts := pdTimestampNow w.clock }],
        exit := none } := by
  simp [runScript, hh, hx, hc, hd, hi]

/-- When the script captures a timestamp, that timestamp is
`pd.Timestamp.now()` of the local clock. -/
theorem capturedTimestamp_eq (w : World) (ts : PyTimestamp)
    (h : capturedTimestamp w = some ts) : ts = pdTimestampNow w.clock := by
  cases hh : w.http with
  | ok data =>
    cases hx : extractPrice data with
    | some p =>
      simp only [capturedTimestamp, hh, hx] at h
      simpa using h.symm
    | none =>
      simp only [capturedTimestamp, hh, hx] at h
      exact Option.noConfusion h
  | requestFails =>
    simp only [capturedTimestamp, hh] at h
    exact Option.noConfusion h
  | bodyNotJson raw =>
    simp only [capturedTimestamp, hh] at h
    exact Option.noConfusion h

/-! ### Claim theorems -/

/-- C1: for every run in which the API response parses to
`{"bitcoin": {"usd": v}}` and every later step succeeds, with the captured
timestamp not already present in the table, the row inserted into
`bitcoin_price` carries `price_usd` equal to `v` exactly — the value is
passed through with no transformation or rounding. -/
theorem C1_price_passthrough (w : World) (v : Rat)
    (hhttp : w.http = .ok (Json.obj [("bitcoin", Json.obj [("usd", Json.num v)])]))
    (hconn : w.connectOk = true) (hddl : w.ddlOk = true) (hins : w.insertOk = true)
    (hfresh : dbHasTimestamp w.db (pdTimestampNow w.clock) = false) :
    ∃ t : Table, (runScript w).db.bitcoinPrice = some t ∧
      (pdTimestampNow w.clock, Json.num v) ∈ t.rows := by
  have hx : extractPrice (Json.obj [("bitcoin", Json.obj [("usd", Json.num v)])])
      = some (Json.num v) := rfl
  rw [runScript_success w _ _ hhttp hx hconn hddl hins]
  cases hdb : w.db.bitcoinPrice with
  | none =>
    refine ⟨{ columns := bitcoinPriceColumns,
              rows := [(pdTimestampNow w.clock, Json.num v)] }, ?_, ?_⟩
    · simp [dbInsert, createTableIfNotExists, hdb, insertOnConflictDoNothing,
        hasTimestamp]
    · simp
  | some t =>
    have hft : hasTimestamp t (pdTimestampNow w.clock) = false := by
      simpa [dbHasTimestamp, hdb] using hfresh
    refine ⟨{ t with rows := t.rows ++ [(pdTimestampNow w.clock, Json.num v)] },
      ?_, ?_⟩
    · simp [dbInsert, createTableIfNotExists, hdb, insertOnConflictDoNothing, hft]
    · simp

/-- C1 witness: the spec's example value 65000.5 on an empty database. -/
theorem C1_witness :
    ∃ t : Table, (runScript wOk).db.bitcoinPrice = some t ∧
      (pdTimestampNow 0, Json.num (65000.5 : Rat)) ∈ t.rows :=
  C1_price_passthrough wOk (65000.5 : Rat) rfl rfl rfl rfl rfl

/-- C2: for every table state and (timestamp, price) pair, the
`ON CONFLICT (timestamp) DO NOTHING` insert is a no-op when a row with the
same timestamp already exists (no second row, no update, and the operation
is total, so no error), and it preserves the one-row-per-timestamp
invariant. -/
theorem C2_duplicate_insert_noop (t : Table) (ts : PyTimestamp) (price : Json) :
    (hasTimestamp t ts = true → insertOnConflictDoNothing t ts price = t) ∧
    ((t.rows.map Prod.fst).Nodup →
      ((insertOnConflictDoNothing t ts price).rows.map Prod.fst).Nodup) := by
  constructor
  · intro h
    simp [insertOnConflictDoNothing, h]
  · intro hnd
    by_cases h : hasTimestamp t ts
    · simpa [insertOnConflictDoNothing, h] using hnd
    · have hts : ts ∉ t.rows.map Prod.fst := by
        intro hmem
        rcases List.mem_map.mp hmem with ⟨r, hr, hr1⟩
        exact h (List.any_eq_true.mpr ⟨r, hr, by simp [hr1]⟩)
      simp [insertOnConflictDoNothing, h, List.nodup_append, hnd, hts]

/-- C2 witness: inserting a second price at an already-present timestamp
leaves the concrete table unchanged and keeps its keys distinct. -/
theorem C2_witness :
    insertOnConflictDoNothing tbl0 (pdTimestampNow 7) (Json.num 2) = tbl0 ∧
    ((insertOnConflictDoNothing tbl0 (pdTimestampNow 7) (Json.num 2)).rows.map
      Prod.fst).Nodup :=
  ⟨(C2_duplicate_insert_noop tbl0 (pdTimestampNow 7) (Json.num 2)).1 (by decide),
   (C2_duplicate_insert_noop tbl0 (pdTimestampNow 7) (Json.num 2)).2 (by decide)⟩

/-- C3: when the response body lacks the `bitcoin` key (or the nested
object lacks `usd`), the run ends with an unhandled lookup failure before
the connect, table-creation and insert steps, the database is unchanged and
nothing is printed. -/
theorem C3_missing_key_aborts (w : World) (body : Json)
    (hhttp : w.http = .ok body) (hmiss : extractPrice body = none) :
    (runScript w).exit = some .lookupError ∧
    (runScript w).db = w.db ∧
    (runScript w).stdout = [] ∧
    Event.connect ∉ (runScript w).trace ∧
    Event.ensureSchema ∉ (runScript w).trace ∧
    Event.insertRow ∉ (runScript w).trace := by
  rw [runScript_lookupFail w body hhttp hmiss]
  exact ⟨rfl, rfl, rfl,
    (by decide : Event.connect ∉ [Event.fetch, Event.parse]),
    (by decide : Event.ensureSchema ∉ [Event.fetch, Event.parse]),
    (by decide : Event.insertRow ∉ [Event.fetch, Event.parse])⟩

/-- C3 witness: a response body `{}` without the `bitcoin` key. -/
theorem C3_witness :
    (runScript wNoKey).exit = some .lookupError ∧
    (runScript wNoKey).db = emptyDb ∧
    (runScript wNoKey).stdout = [] ∧
    Event.connect ∉ (runScript wNoKey).trace ∧
    Event.ensureSchema ∉ (runScript wNoKey).trace ∧
    Event.insertRow ∉ (runScript wNoKey).trace :=
  C3_missing_key_aborts wNoKey (Json.obj []) rfl rfl

/-- C4: when `psycopg2.connect` raises, the run aborts after the HTTP call
with a connection error, the database is unchanged and the success line is
never printed. -/
theorem C4_connect_failure (w : World) (body price : Json)
    (hhttp : w.http = .ok body) (hx : extractPrice body = some price)
    (hconn : w.connectOk = false) :
    (runScript w).exit = some .connectError ∧
    (runScript w).db = w.db ∧
    (runScript w).stdout = [] ∧
    Event.fetch ∈ (runScript w).trace := by
  rw [runScript_connectFail w body price hhttp hx hconn]
  exact ⟨rfl, rfl, rfl,
    (by decide : Event.fetch ∈ [Event.fetch, Event.parse, Event.readClock])⟩

/-- C4 witness: the connection fails on the spec's example response. -/
theorem C4_witness :
    (runScript wConnFail).exit = some .connectError ∧
    (runScript wConnFail).db = emptyDb ∧
    (runScript wConnFail).stdout = [] ∧
    Event.fetch ∈ (runScript wConnFail).trace :=
  C4_connect_failure wConnFail goodBody (Json.num (65000.5 : Rat)) rfl rfl rfl

/-- C5 counterexample: the claim that the captured timestamp is
timezone-aware is false — at a concrete run the script captures
`pd.Timestamp.now()` of the local clock, which carries no timezone. -/
theorem C5_counterexample :
    ¬ (∀ (w : World) (ts : PyTimestamp),
        capturedTimestamp w = some ts → ts.tzAware = true) := by
  intro h
  have hc := h wOk (pdTimestampNow 0) rfl
  simp [pdTimestampNow] at hc

/-- C5 amended: the captured timestamp is timezone-naive and read from the
local clock; the COLUMN that stores it is declared TIMESTAMPTZ
(timezone-aware) and is the table's only primary-key column, so the
timestamp serves as the sample's unique identifier. -/
theorem C5_naive_capture_tz_column (w : World) (ts : PyTimestamp)
    (h : capturedTimestamp w = some ts) :
    ts.tzAware = false ∧ ts.clock = w.clock ∧
    (bitcoinPriceColumns.filter (fun c => c.isPrimaryKey)).map Column.name
      = ["timestamp"] ∧
    ∃ c ∈ bitcoinPriceColumns,
      c.name = "timestamp" ∧ c.sqlType = "TIMESTAMPTZ" ∧ c.isPrimaryKey = true := by
  have hts := capturedTimestamp_eq w ts h
  subst hts
  refine ⟨rfl, rfl, rfl,
    ⟨{ name := "timestamp", sqlType := "TIMESTAMPTZ", isPrimaryKey := true },
      ?_, rfl, rfl, rfl⟩⟩
  simp [bitcoinPriceColumns]

/-- C5 witness: the amended statement at the concrete successful run. -/
theorem C5_witness :
    (pdTimestampNow 0).tzAware = false ∧ (pdTimestampNow 0).clock = wOk.clock ∧
    (bitcoinPriceColumns.filter (fun c => c.isPrimaryKey)).map Column.name
      = ["timestamp"] ∧
    ∃ c ∈ bitcoinPriceColumns,
      c.name = "timestamp" ∧ c.sqlType = "TIMESTAMPTZ" ∧ c.isPrimaryKey = true :=
  C5_naive_capture_tz_column wOk (pdTimestampNow 0) rfl

/-- C6: every run performs a prefix of the fixed step order fetch, parse,
read-clock, connect, ensure-schema, insert, commit, close cursor, close
connection, print; a successful run performs exactly that sequence; the
clock is read only in runs whose parse completed; and the captured
timestamp always comes from the local clock, never from the API response. -/
theorem C6_step_order (w : World) :
    (∃ n, (runScript w).trace = canonicalTrace.take n) ∧
    ((runScript w).exit = none → (runScript w).trace = canonicalTrace) ∧
    (Event.readClock ∈ (runScript w).trace → Event.parse ∈ (runScript w).trace) ∧
    (∀ ts, capturedTimestamp w = some ts → ts = pdTimestampNow w.clock) := by
  have h4 : ∀ ts, capturedTimestamp w = some ts → ts = pdTimestampNow w.clock :=
    fun ts h => capturedTimestamp_eq w ts h
  cases hh : w.http with
  | requestFails =>
    rw [runScript_requestFails w hh]
    exact ⟨⟨0, rfl⟩, by simp, by simp, h4⟩
  | bodyNotJson raw =>
    rw [runScript_bodyNotJson w raw hh]
    exact ⟨⟨1, rfl⟩, by simp, by simp, h4⟩
  | ok data =>
    cases hx : extractPrice data with
    | none =>
      rw [runScript_lookupFail w data hh hx]
      exact ⟨⟨2, rfl⟩, by simp,
        (by decide : Event.readClock ∈ [Event.fetch, Event.parse] →
          Event.parse ∈ [Event.fetch, Event.parse]), h4⟩
    | some price =>
      cases hc : w.connectOk with
      | false =>
        rw [runScript_connectFail w data price hh hx hc]
        exact ⟨⟨3, rfl⟩, by simp,
          (by decide :
            Event.readClock ∈ [Event.fetch, Event.parse, Event.readClock] →
            Event.parse ∈ [Event.fetch, Event.parse, Event.readClock]), h4⟩
      | true =>
        cases hd : w.ddlOk with
        | false =>
          rw [runScript_ddlFail w data price hh hx hc hd]
          exact ⟨⟨4, rfl⟩, by simp,
            (by decide : Event.readClock ∈
                [Event.fetch, Event.parse, Event.readClock, Event.connect] →
              Event.parse ∈
                [Event.fetch, Event.parse, Event.readClock, Event.connect]), h4⟩
        | true =>
          cases hi : w.insertOk with
          | false =>
            rw [runScript_insertFail w data price hh hx hc hd hi]
            exact ⟨⟨5, rfl⟩, by simp,
              (by decide : Event.readClock ∈
                  [Event.fetch, Event.parse, Event.readClock, Event.connect,
                   Event.ensureSchema] →
                Event.parse ∈
                  [Event.fetch, Event.parse, Event.readClock, Event.connect,
                   Event.ensureSchema]), h4⟩
          | true =>
            rw [runScript_success w data price hh hx hc hd hi]
            exact ⟨⟨10, rfl⟩, fun _ => rfl,
              (by decide : Event.readClock ∈ canonicalTrace →
                Event.parse ∈ canonicalTrace), h4⟩

/-- C6 witness: the fully successful concrete run performs exactly the
canonical step sequence. -/
theorem C6_witness : (runScript wOk).trace = canonicalTrace :=
  (C6_step_order wOk).2.1 rfl

/-- C7: `CREATE TABLE IF NOT EXISTS bitcoin_price` is idempotent — against
a database where the correctly-shaped table already exists it changes
nothing and raises no error, for any number of repetitions. -/
theorem C7_create_table_idempotent (db : DbState) (t : Table)
    (hex : db.bitcoinPrice = some t) (hshape : t.columns = bitcoinPriceColumns) :
    createTableIfNotExists db = db ∧
    ∀ n : Nat, Nat.iterate createTableIfNotExists n db = db := by
  have h1 : createTableIfNotExists db = db := by
    unfold createTableIfNotExists
    rw [hex]
  refine ⟨h1, ?_⟩
  intro n
  induction n with
  | zero => rfl
  | succ k ih =>
    show Nat.iterate createTableIfNotExists k (createTableIfNotExists db) = db
    rw [h1]
    exact ih

/-- C7 witness: three repetitions of the DDL on a concrete database whose
table already exists. -/
theorem C7_witness :
    createTableIfNotExists dbWithTable = dbWithTable ∧
    Nat.iterate createTableIfNotExists 3 dbWithTable = dbWithTable :=
  ⟨(C7_create_table_idempotent dbWithTable tbl0 rfl rfl).1,
   (C7_create_table_idempotent dbWithTable tbl0 rfl rfl).2 3⟩

/-- C8: the script catches no exception: the run exits 0 exactly when every
step succeeds (any failing step — network, JSON decode, key lookup,
connect, DDL, insert — propagates, making the exit code nonzero), a clean
run writes exactly one line to standard output, and an aborted run writes
none. -/
theorem C8_no_catch_exit_discipline (w : World) :
    ((exitCode (runScript w) = 0 ↔ allStepsSucceed w = true) ∧
      (exitCode (runScript w) ≠ 0 ↔ exitCode (runScript w) = 1)) ∧
    ((runScript w).exit = none → (runScript w).stdout.length = 1) ∧
    ((runScript w).exit ≠ none → (runScript w).stdout = []) := by
  rcases w with ⟨http, clock, connectOk, ddlOk, insertOk, db⟩
  cases http with
  | requestFails => simp [runScript, exitCode, allStepsSucceed]
  | bodyNotJson raw => simp [runScript, exitCode, allStepsSucceed]
  | ok data =>
    cases hx : extractPrice data with
    | none => simp [runScript, exitCode, allStepsSucceed, hx]
    | some price =>
      cases connectOk <;> cases ddlOk <;> cases insertOk <;>
        simp [runScript, exitCode, allStepsSucceed, hx]

/-- C8 witness: the fully successful concrete run exits 0 and prints
exactly one line. -/
theorem C8_witness :
    exitCode (runScript wOk) = 0 ∧ (runScript wOk).stdout.length = 1 :=
  ⟨((C8_no_catch_exit_discipline wOk).1.1).mpr rfl,
   (C8_no_catch_exit_discipline wOk).2.1 rfl⟩

/-- C9: both SQL statements run on one connection with a single commit
after both, so every run that raises after the connect step completed and
before the commit leaves the committed database state unchanged: neither
the table creation nor the insert persists. -/
theorem C9_no_commit_on_error (w : World) (e : ScriptError)
    (hconn : Event.connect ∈ (runScript w).trace)
    (herr : (runScript w).exit = some e) :
    (runScript w).db = w.db := by
  rcases w with ⟨http, clock, connectOk, ddlOk, insertOk, db⟩
  cases http with
  | requestFails => rfl
  | bodyNotJson raw => rfl
  | ok data =>
    cases hx : extractPrice data with
    | none => simp [runScript, hx]
    | some price =>
      cases connectOk <;> cases ddlOk <;> cases insertOk <;>
        simp_all [runScript, hx]

/-- C9 witness: the DDL statement fails on the concrete run; the committed
database is exactly the initial one. -/
theorem C9_witness : (runScript wDdlFail).db = emptyDb :=
  C9_no_commit_on_error wDdlFail .sqlError (by decide) rfl

/-- C10: whenever the confirmation line was printed, the run exited
cleanly, the trace is exactly the canonical sequence whose last step is the
print, preceded by commit, cursor close and connection close, and the
committed database equals the transaction's effect: table ensured and the
captured (timestamp, price) row inserted. -/
theorem C10_print_implies_committed (w : World)
    (h : (runScript w).stdout ≠ []) :
    (runScript w).exit = none ∧
    (runScript w).trace = canonicalTrace ∧
    (runScript w).trace.getLast? = some Event.printLine ∧
    Event.commit ∈ (runScript w).trace ∧
    Event.closeCursor ∈ (runScript w).trace ∧
    Event.closeConn ∈ (runScript w).trace ∧
    ∃ price, extractedPrice w = some price ∧
      (runScript w).db =
        dbInsert (createTableIfNotExists w.db) (pdTimestampNow w.clock) price := by
  cases hh : w.http with
  | requestFails => exact absurd (congrArg RunResult.stdout
      (runScript_requestFails w hh)) h
  | bodyNotJson raw => exact absurd (congrArg RunResult.stdout
      (runScript_bodyNotJson w raw hh)) h
  | ok data =>
    cases hx : extractPrice data with
    | none => exact absurd (congrArg RunResult.stdout
        (runScript_lookupFail w data hh hx)) h
    | some price =>
      cases hc : w.connectOk with
      | false => exact absurd (congrArg RunResult.stdout
          (runScript_connectFail w data price hh hx hc)) h
      | true =>
        cases hd : w.ddlOk with
        | false => exact absurd (congrArg RunResult.stdout
            (runScript_ddlFail w data price hh hx hc hd)) h
        | true =>
          cases hi : w.insertOk with
          | false => exact absurd (congrArg RunResult.stdout
              (runScript_insertFail w data price hh hx hc hd hi)) h
          | true =>
            rw [runScript_success w data price hh hx hc hd hi]
            refine ⟨rfl, rfl,
              (by decide : canonicalTrace.getLast? = some Event.printLine),
              (by decide : Event.commit ∈ canonicalTrace),
              (by decide : Event.closeCursor ∈ canonicalTrace),
              (by decide : Event.closeConn ∈ canonicalTrace),
              price, ?_, rfl⟩
            simp [extractedPrice, hh, hx]

/-- C10 witness: on the fully successful concrete run the line was printed,
and the theorem yields the clean exit and the canonical trace. -/
theorem C10_witness :
    (runScript wOk).exit = none ∧ (runScript wOk).trace = canonicalTrace :=
  ⟨(C10_print_implies_committed wOk (fun hc => List.noConfusion hc)).1,
   (C10_print_implies_committed wOk (fun hc => List.noConfusion hc)).2.1⟩

end BitcoinETL
